import Mathlib

/-!
# Verification of the NetflixController input and navigation core

Shallow embedding, in Lean 4, of the parts of the NetflixController
repository that its specification makes claims about:

* the gamepad input engine of `src/src/utils/gamepads.ts`
  (deadzone arithmetic, edge-triggered button comparison, listener
  dispatch with consumption, joystick listener registration checks,
  and the connect/disconnect polling loop);
* the page navigation model of
  `src/packages/netflix-controller/src/entrypoints/content/pages/page.ts`
  (`NavigatablePage`) together with the `SliderBrowse` override of
  `setNavigatable` from `src/src/entrypoints/content/pages/slider-browse.ts`;
* the focus components `StaticNavigatable`
  (`src/packages/netflix-controller/src/entrypoints/content/components/static-navigatable.ts`)
  and `Slider`
  (`src/packages/netflix-controller/src/entrypoints/content/components/slider.ts`).

JavaScript numbers that the code only ever uses as exact values
(button values, axis values, deadzones) are modelled as rationals;
array indices and list positions are modelled as integers where the
code can drive them negative, and naturals otherwise.  A JavaScript
array access `xs[i]` that can yield `undefined` is modelled as an
`Option`; code paths that throw are modelled with `Except` or an
explicit "threw" flag.
-/

set_option autoImplicit false

namespace NetflixController

/-! Section: Input engine data model (`src/src/utils/gamepads.ts`) -/

/-- One entry of a device snapshot's `buttons` array:
`{ pressed: bool, value: float }`. -/
structure GPButton where
  pressed : Bool
  value : ℚ
deriving DecidableEq, Repr

/-- The event types fired by the button comparison of `Gamepad.update`. -/
inductive BtnEventType
  | buttonpress
  | buttonrelease
  | buttonvaluechange
deriving DecidableEq, Repr

/-- A `GamepadValueEvent`: `{type, index, value}` (the `consumed` flag is
modelled at dispatch time, see `dispatchRun`). -/
structure ValueEvent where
  type : BtnEventType
  index : ℕ
  value : ℚ
deriving DecidableEq, Repr

/-- JavaScript `Math.sign` on exact rationals: `1` for positive, `-1` for negative,
`0` for zero. -/
def mathSign (v : ℚ) : ℚ :=
  if 0 < v then 1 else if v < 0 then -1 else 0

/-- Source `Gamepad._applyDeadzone(value, deadzone)`:
`Math.abs(value) > deadzone ? value - Math.sign(value) * deadzone : 0`. -/
def applyDeadzone (value deadzone : ℚ) : ℚ :=
  if deadzone < |value| then value - mathSign value * deadzone else 0

/-- The press predicate of `Gamepad._compareButtons`:
`(nv, ov) => nv.pressed && !ov.pressed`. -/
def pressPred (nv ov : GPButton) : Bool :=
  nv.pressed && !ov.pressed

/-- The release predicate of `Gamepad._compareButtons`:
`(nv, ov) => !nv.pressed && ov.pressed`. -/
def releasePred (nv ov : GPButton) : Bool :=
  !nv.pressed && ov.pressed

/-- The value-change predicate of `Gamepad._compareButtons`:
`(nv, ov) => nv.value !== ov.value`. -/
def valueChangePred (nv ov : GPButton) : Bool :=
  nv.value != ov.value

/-- Source `Gamepad._checkButtons(eventType, newValues, oldValues, predicate)`:
loop `i` over the indices of `newValues`; whenever
`predicate(newValues[i], oldValues[i])` holds, construct a
`GamepadValueEvent(eventType, i, newValues[i].value)`.  The constructed
events are returned in index order (the source dispatches each one
immediately inside the loop). -/
def checkButtons (eventType : BtnEventType) (newValues oldValues : List GPButton)
    (pred : GPButton → GPButton → Bool) : List ValueEvent :=
  (List.range newValues.length).filterMap fun i =>
    match newValues[i]?, oldValues[i]? with
    | some nv, some ov =>
        if pred nv ov then some ⟨eventType, i, nv.value⟩ else none
    | _, _ => none

/-- Source `Gamepad._compareButtons(newValues, oldValues)`: runs the three button
checks in source order (press, then release, then value change). -/
def compareButtons (newValues oldValues : List GPButton) : List ValueEvent :=
  checkButtons .buttonpress newValues oldValues pressPred ++
  checkButtons .buttonrelease newValues oldValues releasePred ++
  checkButtons .buttonvaluechange newValues oldValues valueChangePred

/-- The slice of one device snapshot that the button comparison reads. -/
structure Snapshot where
  connected : Bool
  buttons : List GPButton
deriving DecidableEq, Repr

/-- The button-comparison part of `Gamepad.update`: comparisons run only
when both the old and the new snapshot report `connected`. -/
def updateButtonEvents (oldSnap newSnap : Snapshot) : List ValueEvent :=
  if newSnap.connected && oldSnap.connected then
    compareButtons newSnap.buttons oldSnap.buttons
  else []

/-! Subsection: Listener dispatch (`_GamepadEvent._dispatch`, `Gamepad._dispatchEvent`) -/

/-- A registered listener, abstracted to an identity and whether its body
calls `event.consume()`. -/
structure GListener where
  lid : ℕ
  consumes : Bool
deriving DecidableEq, Repr

/-- Source `_GamepadEvent._dispatch(listeners)` starting from consumption state
`consumed`: run the listeners in list order, skipping the rest as soon as
`isConsumed()` holds; returns the identities of the listeners that ran and
the final consumption state (the flag is sticky on the event object). -/
def dispatchRun : List GListener → Bool → List ℕ × Bool
  | [], consumed => ([], consumed)
  | l :: ls, consumed =>
      if consumed then ([], consumed)
      else
        let rest := dispatchRun ls l.consumes
        (l.lid :: rest.1, rest.2)

/-- Source `Gamepad._dispatchEvent(event, callbackMap, index)`: the bucket of
index-specific listeners is dispatched first, then the wildcard (`-1`)
bucket, against the same event object, so consumption in the first bucket
suppresses the second.  Returns the identities of the listeners that ran,
in order. -/
def dispatchEvent (specific wildcard : List GListener) : List ℕ :=
  let first := dispatchRun specific false
  let second := dispatchRun wildcard first.2
  first.1 ++ second.1

/-- One poll fires each detected event separately: `_checkButtons` and the
axis/joystick comparisons construct a fresh event object (with a fresh
`consumed` flag) per firing and dispatch it immediately.  Each element of
the input is the (specific, wildcard) listener bucket pair of one fired
event. -/
def pollDispatch : List (List GListener × List GListener) → List (List ℕ)
  | [] => []
  | buckets :: rest => dispatchEvent buckets.1 buckets.2 :: pollDispatch rest

/-- Spec-side characterisation of dispatch order, for comparison with
`dispatchEvent`: all listeners in order, cut off just after the first one
that consumes the event. -/
def takeThroughConsume : List GListener → List ℕ
  | [] => []
  | l :: ls => l.lid :: (if l.consumes then [] else takeThroughConsume ls)

/-- Source `Gamepad.addEventListener` pushes the listener onto its bucket, so a
bucket holds its listeners in registration order. -/
def addListenerBucket (bucket : List GListener) (l : GListener) : List GListener :=
  bucket ++ [l]

/-! Subsection: Listener registration checks (`Gamepad._checkJoystickEvent`) -/

/-- The event types accepted by `Gamepad.addEventListener`. -/
inductive GPEventType
  | buttonpress
  | buttonrelease
  | buttonvaluechange
  | axischange
  | joystickmove
deriving DecidableEq, Repr

/-- The `index` argument of `Gamepad.addEventListener`: either a plain
number (default `-1`) or an array of axis indices. -/
inductive ListenerIndex
  | single (i : ℤ)
  | arr (is : List ℤ)
deriving DecidableEq, Repr

/-- Source `Gamepad._checkJoystickEvent(type, index)`: throws
`"joystickmove events require a two-length index array"` when
`type === 'joystickmove' && !Array.isArray(index)`.  Note the source
checks only `Array.isArray`, not the array's length. -/
def checkJoystickEvent (eventType : GPEventType) (index : ListenerIndex) :
    Except String Unit :=
  match eventType, index with
  | .joystickmove, .single _ =>
      .error "joystickmove events require a two-length index array"
  | _, _ => .ok ()

/-- One listener bucket map of a `Gamepad`, for a fixed event type:
association list from `index` keys to listener identities in registration
order. -/
def bucketAdd (callbacks : List (ListenerIndex × List ℕ)) (index : ListenerIndex)
    (lid : ℕ) : List (ListenerIndex × List ℕ) :=
  match callbacks with
  | [] => [(index, [lid])]
  | (k, ls) :: rest =>
      if k = index then (k, ls ++ [lid]) :: rest
      else (k, ls) :: bucketAdd rest index lid

/-- Source `Gamepad.addEventListener(type, listener, index)`: runs
`_checkJoystickEvent` first (propagating its error), then pushes the
listener onto the bucket keyed by `index`. -/
def addEventListener (callbacks : List (ListenerIndex × List ℕ))
    (eventType : GPEventType) (lid : ℕ) (index : ListenerIndex) :
    Except String (List (ListenerIndex × List ℕ)) :=
  match checkJoystickEvent eventType index with
  | .error e => .error e
  | .ok () => .ok (bucketAdd callbacks index lid)

/-! Subsection: Connection polling (`GamepadHandler.poll`)

`navigator.getGamepads()` returns an array of slots; a slot is either
`null` or a gamepad whose `index` property equals its slot position (the
W3C behaviour the code relies on: `poll` records slot positions in
`connectedIndices` but tracks gamepads under their `index` property, and
the absence test compares the two).  A device is modelled by its index.
The tracked map `this.gamepads` is a JavaScript object with numeric keys,
which enumerates its keys in ascending numeric order; it is modelled as an
ascending list of indices. -/

/-- A connection event fired by `GamepadHandler.poll`. -/
inductive ConnEvent
  | connect (i : ℕ)
  | disconnect (i : ℕ)
deriving DecidableEq, Repr

/-- Insertion into the tracked map: JavaScript objects enumerate numeric
keys in ascending order, so insertion keeps the key list sorted. -/
def insertKey (d : ℕ) : List ℕ → List ℕ
  | [] => [d]
  | k :: ks => if d < k then d :: k :: ks else if d = k then k :: ks else k :: insertKey d ks

/-- The first loop of `GamepadHandler.poll`, over the host's slot array
(with slot positions counted from `pos`): known devices are updated in
place (no connection event), unseen devices are inserted into the tracked
map and fire `connect`; every non-null slot's position is recorded in
`connectedIndices`.  Returns (tracked map, fired events, connected slot
positions). -/
def pollConnectLoop (pos : ℕ) (tracked : List ℕ) :
    List (Option ℕ) → List ℕ × List ConnEvent × List ℕ
  | [] => (tracked, [], [])
  | none :: slots => pollConnectLoop (pos + 1) tracked slots
  | some d :: slots =>
      if d ∈ tracked then
        let rest := pollConnectLoop (pos + 1) tracked slots
        (rest.1, rest.2.1, pos :: rest.2.2)
      else
        let rest := pollConnectLoop (pos + 1) (insertKey d tracked) slots
        (rest.1, .connect d :: rest.2.1, pos :: rest.2.2)

/-- Source `GamepadHandler.poll()`: after the slot loop, every tracked key absent
from `connectedIndices` fires `disconnect` and is deleted (the tracked map
is enumerated in ascending key order). -/
def poll (tracked : List ℕ) (host : List (Option ℕ)) : List ℕ × List ConnEvent :=
  let afterConnect := pollConnectLoop 0 tracked host
  let tracked' := afterConnect.1
  let connectedIndices := afterConnect.2.2
  let gone := tracked'.filter (fun k => decide (k ∉ connectedIndices))
  (tracked'.filter (fun k => decide (k ∈ connectedIndices)),
   afterConnect.2.1 ++ gone.map .disconnect)

/-- A sequence of polls from an initial tracked map, accumulating the
fired connection events in order. -/
def pollSeq (tracked : List ℕ) : List (List (Option ℕ)) → List ℕ × List ConnEvent
  | [] => (tracked, [])
  | host :: rest =>
      let step := poll tracked host
      let more := pollSeq step.1 rest
      (more.1, step.2 ++ more.2)

/-! Section: Page navigation model (`pages/page.ts`, `pages/slider-browse.ts`)

A page's navigatables are identified by numeric ids; a `null` placeholder
entry is `none`.  `position` is a JavaScript number that the code can
drive to any integer (`removeCurrentNavigatable` decrements it), so it is
modelled as `ℤ`.  `exit`/`enter` side effects on the current navigatable
are recorded as a trace of `PageAction`s. -/

/-- A side effect of `NavigatablePage.exit`/`NavigatablePage.enter` on a
navigatable, identified by its id. -/
inductive PageAction
  | exitNav (id : ℕ)
  | enterNav (id : ℕ)
deriving DecidableEq, Repr

/-- The list/position state of a `NavigatablePage`. -/
structure PageState where
  navigatables : List (Option ℕ)
  position : ℤ
deriving DecidableEq, Repr

/-- JavaScript indexing `this.navigatables[position]`: out-of-range or
negative access yields `undefined`, and a stored `null` entry also fails
the truthiness tests of `exit`/`enter`; both are `none` here. -/
def navAt (navigatables : List (Option ℕ)) (position : ℤ) : Option ℕ :=
  if 0 ≤ position then (navigatables.getD position.toNat none) else none

/-- Source `NavigatablePage.isNavigatable(position)`:
`position < this.navigatables.length` — and nothing else (no lower bound,
no null check). -/
def isNavigatable (s : PageState) (position : ℤ) : Bool :=
  position < (s.navigatables.length : ℤ)

/-- Source `NavigatablePage.exit()`: if the entry at the current position is
truthy, call its `exit` (recorded in the trace); the transfer object it
returns is opaque for the page-level claims. -/
def pageExit (s : PageState) : List PageAction :=
  match navAt s.navigatables s.position with
  | some id => [.exitNav id]
  | none => []

/-- Source `NavigatablePage.enter(params)`: if the entry at the current position
is truthy, call its `enter` (recorded in the trace). -/
def pageEnter (s : PageState) : List PageAction :=
  match navAt s.navigatables s.position with
  | some id => [.enterNav id]
  | none => []

/-- Source `NavigatablePage.setNavigatable(position)`: throws
`"no navigatable at position ..."` when `isNavigatable` fails; otherwise
exits the current entry, moves `position`, and enters the new entry. -/
def setNavigatable (s : PageState) (position : ℤ) :
    Except String (PageState × List PageAction) :=
  if !isNavigatable s position then
    .error "no navigatable at position"
  else
    let exitTrace := pageExit s
    let s' : PageState := { s with position := position }
    .ok (s', exitTrace ++ pageEnter s')

/-- JavaScript `Array.prototype.splice(position, 0, x)` for `0 ≤ position`
(insertion past the end appends). -/
def spliceInsert (l : List (Option ℕ)) (position : ℕ) (x : Option ℕ) :
    List (Option ℕ) :=
  l.take position ++ [x] ++ l.drop position

/-- Source `NavigatablePage.addNavigatable(position, navigatable)` (the styler
assignment has no bearing on the list/position state). -/
def addNavigatable (s : PageState) (position : ℕ) (navigatable : Option ℕ) :
    PageState :=
  { s with navigatables := spliceInsert s.navigatables position navigatable }

/-- Source `NavigatablePage.removeNavigatable(position)` for a numeric
non-negative argument: `splice(position, 1)` (no-op past the end). -/
def removeNavigatable (s : PageState) (position : ℕ) : PageState :=
  { s with
    navigatables := s.navigatables.take position ++ s.navigatables.drop (position + 1) }

/-- The materialization environment of `SliderBrowse.setNavigatable`: what
`Jawbone.getJawbone` and `getNextNavigatable` would find in the document.
`replacedEarlierJawbone` is the flag of the found jawbone. -/
structure Materialization where
  jawbone : Option (ℕ × Bool)
  nextNav : Option ℕ
deriving DecidableEq, Repr

/-- Source `SliderBrowse.setNavigatable(position)`: when moving to
`this.position + 1` and the current entry is a `Slider` without an open
jawbone, a found jawbone is spliced in at `position` (decremented first if
the jawbone replaced an earlier one); if the target is still not
navigatable, a materialized next row is spliced in; only if the target is
now navigatable does it delegate to the base `setNavigatable` — otherwise
it returns without doing anything. -/
def sliderBrowseSetNavigatable (env : Materialization)
    (currentIsSlider jawboneOpen : Bool) (s : PageState) (position : ℤ) :
    Except String (PageState × List PageAction) :=
  let afterJawbone :=
    if position = s.position + 1 ∧ (navAt s.navigatables s.position).isSome ∧
        currentIsSlider ∧ !jawboneOpen then
      match env.jawbone with
      | some jb =>
          let position' := if jb.2 then position - 1 else position
          (addNavigatable s position'.toNat (some jb.1), position')
      | none => (s, position)
    else (s, position)
  let s1 := afterJawbone.1
  let position1 := afterJawbone.2
  let s2 :=
    if !isNavigatable s1 position1 then
      match env.nextNav with
      | some nav => addNavigatable s1 position1.toNat (some nav)
      | none => s1
    else s1
  if isNavigatable s2 position1 then setNavigatable s2 position1
  else .ok (s2, [])

/-! Section: `StaticNavigatable` (`components/static-navigatable.ts`)

A cached component is a document element: it has an identity and may have
been detached from the document since it was cached.  `select` touches the
element's style, which works on attached and detached elements alike; what
throws is reading `.style` of `undefined`, i.e. indexing the cached list
out of range. -/

/-- A cached component of a `StaticNavigatable`. -/
structure Component where
  cid : ℕ
  attached : Bool
deriving DecidableEq, Repr

/-- The state of a `StaticNavigatable`: the cached `_components` list and
`position` (`-1` when unselected). -/
structure StaticNav where
  components : List Component
  position : ℤ
deriving DecidableEq, Repr

/-- Source `this.components[this.position]` (`getSelectedComponent` /
`getStyleComponent`): `undefined` for a negative or out-of-range
position. -/
def compAt (components : List Component) (position : ℤ) : Option Component :=
  if 0 ≤ position then components[position.toNat]? else none

/-- Source `StaticNavigatable.unselect()` throws iff it dereferences `undefined`:
it touches `getStyleComponent().style` only when `this.position >= 0`. -/
def unselectThrows (s : StaticNav) : Bool :=
  0 ≤ s.position && (compAt s.components s.position).isNone

/-- Source `StaticNavigatable.select(position)`: `unselect()` first (which can
itself throw on a corrupted position), then `this.position = position`,
then `component.style.outline = ...` on `components[position]` — a
`TypeError` when that access yields `undefined`, and an ordinary style
write (attached or not) otherwise.  Result: (state after the call, the
component that was styled if any, whether the call threw). -/
def select (s : StaticNav) (position : ℤ) :
    StaticNav × Option Component × Bool :=
  if unselectThrows s then (s, none, true)
  else
    let s' : StaticNav := { s with position := position }
    match compAt s'.components position with
    | some c => (s', some c, false)
    | none => (s', none, true)

/-- The transfer object passed between `exit()` and `enter(params)`
(`ExitResult` / `EnterParams`): the fields the slider and static
navigatables read or write. -/
structure TransferParams where
  position : Option ℤ := none
  jawboneClosed : Bool := false
  jawboneRow : Option ℤ := none
deriving DecidableEq, Repr

/-- Source `StaticNavigatable.exit()`: unselect (styling only), reset `position`
to `-1`, and return the empty transfer object `{}`. -/
def staticExit (s : StaticNav) : StaticNav × TransferParams :=
  ({ s with position := -1 }, {})

/-- Source `StaticNavigatable.enter(params)`: `this.select(0)`, ignoring the
transfer object entirely. -/
def staticEnter (s : StaticNav) (_params : TransferParams) :
    StaticNav × Option Component × Bool :=
  select s 0

/-! Section: `Slider` (`components/slider.ts`)

A slider navigates a DOM row; the row's occupied visual positions are the
`p` with an element matching `.slider-item-p` (a non-negative class
suffix).  The DOM row is modelled by that set of occupied positions. -/

/-- The state of a `Slider` (the fields its `enter`/`exit` read or
write). -/
structure SliderState where
  row : ℤ
  position : ℤ
  canShiftLeft : Bool
  jawboneOpen : Bool
  occupied : List ℕ
deriving DecidableEq, Repr

/-- Source `Slider.hasPosition(position)`:
`this.rowNode.querySelector('.slider-item-' + position) !== null`; the
row's item classes carry non-negative suffixes. -/
def hasPosition (occupied : List ℕ) (position : ℤ) : Bool :=
  0 ≤ position && position.toNat ∈ occupied

/-- Source `Slider.selectPosition(position)`: looks up the slider item; if the
query finds nothing it returns with the state unchanged, otherwise it
records the new position (the mouse events and outline are styling
only). -/
def selectPosition (s : SliderState) (position : ℤ) : SliderState :=
  if hasPosition s.occupied position then { s with position := position } else s

/-- The backward-walking resolution loop of `Slider.enter`:
`while (!found) { if (this.hasPosition(position)) found = true; else position--; }`,
modelled with explicit fuel; `none` means the fuel ran out before an
occupied position was found. -/
def resolveLoop (occupied : List ℕ) : ℕ → ℤ → Option ℤ
  | 0, _ => none
  | fuel + 1, position =>
      if hasPosition occupied position then some position
      else resolveLoop occupied fuel (position - 1)

/-- Source `Slider.enter(params)`: clear `jawboneOpen` if the transfer object
says the jawbone closed; when `params.position` is defined and the
transfer's `jawboneRow` (default `-1`) is absent or matches this row,
adjust the requested position for the partially visible left item and
walk backward to the nearest occupied position; otherwise select position
0.  `none` models the non-terminating walk (the fuel
`(start.toNat + 1)` is exactly enough to reach position 0, and once the
walk passes below 0 no amount of fuel can succeed —
see `resolveLoop_isSome_iff`). -/
def sliderEnter (s : SliderState) (params : TransferParams) :
    Option SliderState :=
  let s0 := if params.jawboneClosed then { s with jawboneOpen := false } else s
  let jawboneRow := params.jawboneRow.getD (-1)
  match params.position with
  | some p =>
      if jawboneRow = -1 ∨ jawboneRow = s0.row then
        let start := p + (if s0.canShiftLeft then 1 else 0)
        match resolveLoop s0.occupied (start.toNat + 1) start with
        | some found => some (selectPosition s0 found)
        | none => none
      else some (selectPosition s0 0)
  | none => some (selectPosition s0 0)

/-- Source `Slider.exit()`: unselect (styling only), return the current position
minus one when the partially visible left item offsets the count; the
slider's own state is untouched. -/
def sliderExit (s : SliderState) : SliderState × TransferParams :=
  (s, { position := some (s.position - (if s.canShiftLeft then 1 else 0)) })

/-! Section: Helper lemmas -/

/-- Closed form of the deadzone adjustment as a composition of `max` and
`min`, used for the Lipschitz (no-jump) bound. -/
theorem applyDeadzone_eq_max_min (v dz : ℚ) (h0 : 0 ≤ dz) :
    applyDeadzone v dz = max (v - dz) (min (v + dz) 0) := by
  unfold applyDeadzone mathSign
  rcases lt_trichotomy v 0 with hv | hv | hv
  · by_cases h : dz < |v|
    · rw [if_pos h, if_neg (by linarith), if_pos hv]
      rw [abs_of_neg hv] at h
      rw [min_eq_left (by linarith), max_eq_right (by linarith)]
      ring
    · rw [if_neg h]
      rw [abs_of_neg hv, not_lt] at h
      rw [min_eq_right (by linarith), max_eq_right (by linarith)]
  · subst hv
    rw [abs_zero, if_neg (by linarith), min_eq_right (by linarith),
      max_eq_right (by linarith)]
  · by_cases h : dz < |v|
    · rw [if_pos h, if_pos hv]
      rw [abs_of_pos hv] at h
      rw [min_eq_right (by linarith), max_eq_left (by linarith)]
      ring
    · rw [if_neg h]
      rw [abs_of_pos hv, not_lt] at h
      rw [min_eq_right (by linarith), max_eq_right (by linarith)]

/-! Section: Claim theorems -/

/-- C6: for every value `v` and deadzone `dz ∈ [0, 1)`, the deadzone
adjustment returns `0` whenever `|v| ≤ dz` and `v - sign(v)·dz` whenever
`|v| > dz`; its absolute value is `max (|v| - dz) 0`; and it has no jump
at the boundary: it is 1-Lipschitz in `v` (exact arithmetic). -/
theorem applyDeadzone_spec (v dz : ℚ) (h0 : 0 ≤ dz) (h1 : dz < 1) :
    (|v| ≤ dz → applyDeadzone v dz = 0) ∧
    (dz < |v| → applyDeadzone v dz = v - mathSign v * dz) ∧
    |applyDeadzone v dz| = max (|v| - dz) 0 ∧
    (∀ w, |applyDeadzone v dz - applyDeadzone w dz| ≤ |v - w|) := by
  refine ⟨fun h => ?_, fun h => ?_, ?_, fun w => ?_⟩
  · rw [applyDeadzone, if_neg (not_lt.mpr h)]
  · rw [applyDeadzone, if_pos h]
  · unfold applyDeadzone mathSign
    by_cases h : dz < |v|
    · rw [if_pos h, max_eq_left (by linarith)]
      rcases lt_trichotomy v 0 with hv | hv | hv
      · rw [if_neg (by linarith), if_pos hv, abs_of_neg hv] at *
        rw [abs_of_neg (by linarith)]
        ring
      · subst hv; simp at h; linarith
      · rw [if_pos hv, abs_of_pos hv] at *
        rw [abs_of_pos (by linarith)]
        ring
    · rw [if_neg h, abs_zero, max_eq_right (by linarith [not_lt.mp h])]
  · rw [applyDeadzone_eq_max_min v dz h0, applyDeadzone_eq_max_min w dz h0]
    have hvw : v - dz - (w - dz) = v - w := by ring
    have hvw2 : v + dz - (w + dz) = v - w := by ring
    refine le_trans (abs_max_sub_max_le_max _ _ _ _)
      (max_le (le_of_eq (by rw [hvw])) ?_)
    refine le_trans (abs_min_sub_min_le_max _ _ _ _)
      (max_le (le_of_eq (by rw [hvw2])) ?_)
    simp only [sub_zero, abs_zero]
    exact abs_nonneg (v - w)

/-- C6 witness: the theorem applied at `v = 1/2`, `dz = 1/10`. -/
theorem applyDeadzone_spec_witness :
    (0 ≤ (1 / 10 : ℚ)) ∧ ((1 / 10 : ℚ) < 1) ∧
    ((|((1 : ℚ) / 2)| ≤ 1 / 10 → applyDeadzone (1 / 2) (1 / 10) = 0) ∧
     ((1 / 10 : ℚ) < |((1 : ℚ) / 2)| →
        applyDeadzone (1 / 2) (1 / 10) = 1 / 2 - mathSign (1 / 2) * (1 / 10)) ∧
     |applyDeadzone (1 / 2) (1 / 10)| = max (|(1 : ℚ) / 2| - 1 / 10) 0 ∧
     (∀ w, |applyDeadzone (1 / 2) (1 / 10) - applyDeadzone w (1 / 10)| ≤
        |1 / 2 - w|)) :=
  ⟨by norm_num, by norm_num,
    applyDeadzone_spec (1 / 2) (1 / 10) (by norm_num) (by norm_num)⟩

/-- Counting in a `filterMap` is counting, in the base list, the elements
whose image satisfies the predicate. -/
theorem countP_filterMap {α β : Type} (g : α → Option β) (p : β → Bool)
    (l : List α) :
    (l.filterMap g).countP p =
      l.countP (fun a => ((g a).map p).getD false) := by
  induction l with
  | nil => rfl
  | cons a l ih =>
      cases hg : g a with
      | none => simp [List.filterMap_cons, hg, List.countP_cons, ih]
      | some b => simp [List.filterMap_cons, hg, List.countP_cons, ih]

/-- A predicate satisfied at exactly one element of a duplicate-free list
has count one. -/
theorem countP_eq_one_of_unique {α : Type} (q : α → Bool) (l : List α) (i : α)
    (hnd : l.Nodup) (hmem : i ∈ l) (hq : q i = true)
    (hothers : ∀ j ∈ l, j ≠ i → q j = false) : l.countP q = 1 := by
  induction l with
  | nil => simp at hmem
  | cons a l ih =>
      rcases List.mem_cons.mp hmem with rfl | hmem'
      · rw [List.countP_cons_of_pos _ _ hq]
        have hz : l.countP q = 0 := List.countP_eq_zero.mpr (fun j hj => by
          have hji : j ≠ i := fun h => (List.nodup_cons.mp hnd).1 (h ▸ hj)
          simp [hothers j (List.mem_cons_of_mem _ hj) hji])
        rw [hz]
      · have hai : a ≠ i := by
          rintro rfl
          exact (List.nodup_cons.mp hnd).1 hmem'
        rw [List.countP_cons_of_neg _ _
          (by simp [hothers a (List.mem_cons_self a l) hai])]
        exact ih (List.nodup_cons.mp hnd).2 hmem'
          (fun j hj => hothers j (List.mem_cons_of_mem _ hj))

/-- The check loop fires exactly one event of its type at index `i` when
the predicate detects a transition there. -/
theorem checkButtons_countP_eq_one (t : BtnEventType)
    (newValues oldValues : List GPButton) (pred : GPButton → GPButton → Bool)
    (i : ℕ) (h1 : i < newValues.length) (h2 : i < oldValues.length)
    (hp : pred (newValues.get ⟨i, h1⟩) (oldValues.get ⟨i, h2⟩) = true) :
    (checkButtons t newValues oldValues pred).countP
      (fun e => e.type == t && e.index == i) = 1 := by
  unfold checkButtons
  rw [countP_filterMap]
  apply countP_eq_one_of_unique _ _ i (List.nodup_range _) (List.mem_range.mpr h1)
  · simp only [List.getElem?_eq_getElem h1, List.getElem?_eq_getElem h2]
    simp only [List.get_eq_getElem] at hp
    simp [hp]
  · intro j hj hne
    cases hnj : newValues[j]? with
    | none => simp [hnj]
    | some nv =>
        cases hoj : oldValues[j]? with
        | none => simp [hnj, hoj]
        | some ov =>
            by_cases hpj : pred nv ov
            · simp [hnj, hoj, hpj, hne]
            · simp [hnj, hoj, hpj]

/-- The check loop fires no event matching type `t'` at index `i` when
either `t'` is not the checked type or the predicate does not fire at
`i`. -/
theorem checkButtons_countP_eq_zero (t t' : BtnEventType)
    (newValues oldValues : List GPButton) (pred : GPButton → GPButton → Bool)
    (i : ℕ)
    (h : ∀ (h1 : i < newValues.length) (h2 : i < oldValues.length),
      t' = t → pred (newValues.get ⟨i, h1⟩) (oldValues.get ⟨i, h2⟩) = false) :
    (checkButtons t newValues oldValues pred).countP
      (fun e => e.type == t' && e.index == i) = 0 := by
  unfold checkButtons
  rw [countP_filterMap]
  apply List.countP_eq_zero.mpr
  intro j hj
  rw [List.mem_range] at hj
  by_cases hij : j = i
  · subst hij
    cases hnj : newValues[j]? with
    | none => simp [hnj]
    | some nv =>
        cases hoj : oldValues[j]? with
        | none => simp [hnj, hoj]
        | some ov =>
            by_cases htt : t' = t
            · have h2 : j < oldValues.length :=
                (List.getElem?_eq_some_iff.mp hoj).1
              have hnv : nv = newValues[j] := by
                rw [List.getElem?_eq_getElem hj] at hnj
                exact (Option.some_inj.mp hnj).symm
              have hov : ov = oldValues[j] := by
                rw [List.getElem?_eq_getElem h2] at hoj
                exact (Option.some_inj.mp hoj).symm
              have hpf := h hj h2 htt
              simp only [List.get_eq_getElem] at hpf
              rw [hnv, hov]
              simp [hnj, hoj, hpf]
            · by_cases hpj : pred nv ov
              · simp only [hnj, hoj, hpj, if_true, Option.map_some, Option.getD_some]
                simp [beq_iff_eq]
                exact fun h => absurd h.symm htt
              · simp [hnj, hoj, hpj]
  · cases hnj : newValues[j]? with
    | none => simp [hnj]
    | some nv =>
        cases hoj : oldValues[j]? with
        | none => simp [hnj, hoj]
        | some ov =>
            by_cases hpj : pred nv ov
            · simp [hnj, hoj, hpj, hij]
            · simp [hnj, hoj, hpj]

/-- Dispatch on an already-consumed event runs no listener. -/
theorem dispatchRun_consumed (ls : List GListener) :
    dispatchRun ls true = ([], true) := by
  cases ls <;> simp [dispatchRun]

/-- Dispatch on a fresh event runs the listeners through the first
consumer; the final consumption state records whether some listener in the
bucket consumes. -/
theorem dispatchRun_fresh (ls : List GListener) :
    dispatchRun ls false = (takeThroughConsume ls, ls.any (fun l => l.consumes)) := by
  induction ls with
  | nil => rfl
  | cons l ls ih =>
      by_cases hc : l.consumes
      · simp [dispatchRun, takeThroughConsume, hc, dispatchRun_consumed]
      · simp [dispatchRun, takeThroughConsume, hc, ih]

/-- When some listener of the first bucket consumes, the cut-off happens
inside the first bucket. -/
theorem takeThroughConsume_append_of_any (s w : List GListener)
    (h : s.any (fun l => l.consumes) = true) :
    takeThroughConsume (s ++ w) = takeThroughConsume s := by
  induction s with
  | nil => simp at h
  | cons l ls ih =>
      by_cases hc : l.consumes
      · simp [takeThroughConsume, hc]
      · have h' : ls.any (fun x => x.consumes) = true := by
          rw [List.any_cons] at h
          rcases Bool.or_eq_true_iff.mp h with h1 | h1
          · exact absurd h1 hc
          · exact h1
        simp [takeThroughConsume, hc, ih h']

/-- When no listener of the first bucket consumes, both buckets run in
full order. -/
theorem takeThroughConsume_append_of_none (s w : List GListener)
    (h : s.any (fun l => l.consumes) = false) :
    takeThroughConsume (s ++ w) =
      takeThroughConsume s ++ takeThroughConsume w := by
  induction s with
  | nil => simp [takeThroughConsume]
  | cons l ls ih =>
      rw [List.any_cons, Bool.or_eq_false_iff] at h
      simp [takeThroughConsume, h.1, ih h.2]

/-- Registration by repeated pushing yields the listeners in registration
order. -/
theorem foldl_addListenerBucket (regs acc : List GListener) :
    List.foldl addListenerBucket acc regs = acc ++ regs := by
  induction regs generalizing acc with
  | nil => simp
  | cons l ls ih => simp [addListenerBucket, ih]

/-- C7: an event whose index has both an index-specific bucket and a
wildcard bucket is delivered to every index-specific listener first, in
registration order, then to the wildcard listeners in registration order,
cut off immediately after the first listener that consumes the event; and
dispatch of one fired event of a poll does not affect the dispatch of the
sibling events of the same poll, which each start unconsumed. -/
theorem dispatch_order_and_consumption
    (specificRegs wildcardRegs : List GListener)
    (buckets : List GListener × List GListener)
    (rest : List (List GListener × List GListener)) :
    dispatchEvent (List.foldl addListenerBucket [] specificRegs)
        (List.foldl addListenerBucket [] wildcardRegs) =
      takeThroughConsume (specificRegs ++ wildcardRegs) ∧
    pollDispatch (buckets :: rest) =
      dispatchEvent buckets.1 buckets.2 :: pollDispatch rest := by
  constructor
  · rw [foldl_addListenerBucket, foldl_addListenerBucket, List.nil_append,
      List.nil_append]
    unfold dispatchEvent
    rw [dispatchRun_fresh]
    by_cases h : specificRegs.any (fun l => l.consumes)
    · simp only [h, dispatchRun_consumed]
      rw [takeThroughConsume_append_of_any _ _ h]
      simp
    · simp only [Bool.not_eq_true] at h
      simp only [h, dispatchRun_fresh]
      rw [takeThroughConsume_append_of_none _ _ h]
  · rfl

/-- C5: between two consecutive connected snapshots of one device, a
button transitioning from not-pressed to pressed makes the update fire
exactly one `buttonpress` event and zero `buttonrelease` events for that
index, and a transition from pressed to not-pressed fires exactly one
`buttonrelease` event and zero `buttonpress` events. -/
theorem button_edge_events (oldSnap newSnap : Snapshot) (i : ℕ)
    (h1 : i < newSnap.buttons.length) (h2 : i < oldSnap.buttons.length)
    (hco : oldSnap.connected = true) (hcn : newSnap.connected = true) :
    ((oldSnap.buttons.get ⟨i, h2⟩).pressed = false →
     (newSnap.buttons.get ⟨i, h1⟩).pressed = true →
     (updateButtonEvents oldSnap newSnap).countP
        (fun e => e.type == BtnEventType.buttonpress && e.index == i) = 1 ∧
     (updateButtonEvents oldSnap newSnap).countP
        (fun e => e.type == BtnEventType.buttonrelease && e.index == i) = 0) ∧
    ((oldSnap.buttons.get ⟨i, h2⟩).pressed = true →
     (newSnap.buttons.get ⟨i, h1⟩).pressed = false →
     (updateButtonEvents oldSnap newSnap).countP
        (fun e => e.type == BtnEventType.buttonrelease && e.index == i) = 1 ∧
     (updateButtonEvents oldSnap newSnap).countP
        (fun e => e.type == BtnEventType.buttonpress && e.index == i) = 0) := by
  unfold updateButtonEvents
  rw [hco, hcn]
  simp only [Bool.and_self, if_true]
  unfold compareButtons
  constructor
  · intro hop hnp
    simp only [List.get_eq_getElem] at hop hnp
    constructor
    · rw [List.countP_append, List.countP_append]
      rw [checkButtons_countP_eq_one BtnEventType.buttonpress _ _ pressPred i h1 h2
        (by simp [pressPred, hop, hnp])]
      rw [checkButtons_countP_eq_zero BtnEventType.buttonrelease
        BtnEventType.buttonpress _ _ releasePred i (by intro _ _ h; cases h)]
      rw [checkButtons_countP_eq_zero BtnEventType.buttonvaluechange
        BtnEventType.buttonpress _ _ valueChangePred i (by intro _ _ h; cases h)]
    · rw [List.countP_append, List.countP_append]
      rw [checkButtons_countP_eq_zero BtnEventType.buttonpress
        BtnEventType.buttonrelease _ _ pressPred i (by intro _ _ h; cases h)]
      rw [checkButtons_countP_eq_zero BtnEventType.buttonrelease
        BtnEventType.buttonrelease _ _ releasePred i
        (by intro h1' h2' _; simp [releasePred, hop, hnp])]
      rw [checkButtons_countP_eq_zero BtnEventType.buttonvaluechange
        BtnEventType.buttonrelease _ _ valueChangePred i (by intro _ _ h; cases h)]
  · intro hop hnp
    simp only [List.get_eq_getElem] at hop hnp
    constructor
    · rw [List.countP_append, List.countP_append]
      rw [checkButtons_countP_eq_zero BtnEventType.buttonpress
        BtnEventType.buttonrelease _ _ pressPred i (by intro _ _ h; cases h)]
      rw [checkButtons_countP_eq_one BtnEventType.buttonrelease _ _ releasePred i
        h1 h2 (by simp [releasePred, hop, hnp])]
      rw [checkButtons_countP_eq_zero BtnEventType.buttonvaluechange
        BtnEventType.buttonrelease _ _ valueChangePred i (by intro _ _ h; cases h)]
    · rw [List.countP_append, List.countP_append]
      rw [checkButtons_countP_eq_zero BtnEventType.buttonpress
        BtnEventType.buttonpress _ _ pressPred i
        (by intro h1' h2' _; simp [pressPred, hop, hnp])]
      rw [checkButtons_countP_eq_zero BtnEventType.buttonrelease
        BtnEventType.buttonpress _ _ releasePred i (by intro _ _ h; cases h)]
      rw [checkButtons_countP_eq_zero BtnEventType.buttonvaluechange
        BtnEventType.buttonpress _ _ valueChangePred i (by intro _ _ h; cases h)]

/-- C5 witness: the theorem applied to a one-button device whose button
goes from released (value 0) to pressed (value 1). -/
theorem button_edge_events_witness :
    (Snapshot.mk true [⟨false, 0⟩]).connected = true ∧
    (Snapshot.mk true [⟨true, 1⟩]).connected = true ∧
    ((updateButtonEvents ⟨true, [⟨false, 0⟩]⟩ ⟨true, [⟨true, 1⟩]⟩).countP
      (fun e => e.type == BtnEventType.buttonpress && e.index == 0) = 1 ∧
    (updateButtonEvents ⟨true, [⟨false, 0⟩]⟩ ⟨true, [⟨true, 1⟩]⟩).countP
      (fun e => e.type == BtnEventType.buttonrelease && e.index == 0) = 0) :=
  ⟨rfl, rfl,
    (button_edge_events ⟨true, [⟨false, 0⟩]⟩ ⟨true, [⟨true, 1⟩]⟩ 0
      (by decide) (by decide) rfl rfl).1 rfl rfl⟩

/-- C8 counterexample: `addEventListener('joystickmove', ..., [0, 1, 2])`
with a 3-length index array is accepted (the registration succeeds), so it
is not true that every index argument that is not a 2-length pair is
rejected. -/
theorem addEventListener_accepts_length_three :
    addEventListener [] GPEventType.joystickmove 0 (ListenerIndex.arr [0, 1, 2]) =
      Except.ok [(ListenerIndex.arr [0, 1, 2], [0])] ∧
    ([(0 : ℤ), 1, 2] : List ℤ).length ≠ 2 :=
  ⟨rfl, by decide⟩

/-- C8 (amended): `addEventListener` fails fast with the error
`"joystickmove events require a two-length index array"` exactly when the
event type is `joystickmove` and the index argument is not an array at
all; the length of an array index argument is not validated. -/
theorem addEventListener_array_check (callbacks : List (ListenerIndex × List ℕ))
    (eventType : GPEventType) (lid : ℕ) (index : ListenerIndex) :
    (addEventListener callbacks eventType lid index =
      Except.error "joystickmove events require a two-length index array") ↔
    (eventType = GPEventType.joystickmove ∧ ∀ is, index ≠ ListenerIndex.arr is) := by
  cases eventType <;> cases index <;>
    simp [addEventListener, checkJoystickEvent]

/-- C9: three devices appearing in the host's slot list over successive
polls in order A, B, C (indices 0, 1, 2), after which B's slot empties,
make `poll` emit exactly `connect(A), connect(B), connect(C),
disconnect(B)` in that order, leaving exactly `{A, C}` tracked. -/
theorem poll_connect_disconnect_scenario :
    pollSeq [] [[some 0], [some 0, some 1], [some 0, some 1, some 2],
        [some 0, none, some 2]] =
      ([0, 2], [ConnEvent.connect 0, ConnEvent.connect 1, ConnEvent.connect 2,
        ConnEvent.disconnect 1]) := by
  rfl

/-- C1 counterexample: a page of length 1 with no materialization source
(the base `NavigatablePage`), asked to move to position 1, throws
`"no navigatable at position ..."` instead of being a benign no-op. -/
theorem setNavigatable_past_end_throws :
    setNavigatable ⟨[some 0], 0⟩ 1 =
      Except.error "no navigatable at position" := by
  rfl

/-- C1 (amended): moving past the end when materialization produces no
entry is a no-op only for the `SliderBrowse` override (state unchanged,
no `exit`/`enter`, no error); the base `NavigatablePage.setNavigatable`
instead rejects the move by throwing an error (also without changing
state or running `exit`/`enter`). -/
theorem setNavigatable_past_end (currentIsSlider jawboneOpen : Bool)
    (s : PageState) (p : ℤ) (hp : (s.navigatables.length : ℤ) ≤ p) :
    sliderBrowseSetNavigatable ⟨none, none⟩ currentIsSlider jawboneOpen s p =
      Except.ok (s, []) ∧
    setNavigatable s p = Except.error "no navigatable at position" := by
  have hnav : isNavigatable s p = false := by
    unfold isNavigatable
    simp only [decide_eq_false_iff_not, not_lt]
    exact hp
  constructor
  · unfold sliderBrowseSetNavigatable
    simp only [hnav, Bool.not_false, if_pos, Bool.false_eq_true, if_neg]
    split
    · simp [hnav]
    · simp [hnav]
  · unfold setNavigatable
    rw [hnav]
    rfl

/-- C1 witness: the amended theorem applied to a one-entry page asked to
move to position 1 with empty materialization. -/
theorem setNavigatable_past_end_witness :
    (((⟨[some 0], 0⟩ : PageState).navigatables.length : ℤ) ≤ 1) ∧
    (sliderBrowseSetNavigatable ⟨none, none⟩ true false ⟨[some 0], 0⟩ 1 =
      Except.ok (⟨[some 0], 0⟩, []) ∧
     setNavigatable ⟨[some 0], 0⟩ 1 =
      Except.error "no navigatable at position") :=
  ⟨by decide, setNavigatable_past_end true false ⟨[some 0], 0⟩ 1 (by decide)⟩

/-- C2 counterexample: after inserting a `null` placeholder at index 0 and
a real navigatable at index 1, `setNavigatable(0)` completes normally
(position `0 < length 2`) yet leaves `position` pointing at the `null`
entry. -/
theorem setNavigatable_lands_on_null :
    setNavigatable (addNavigatable (addNavigatable ⟨[], 0⟩ 0 none) 1 (some 1)) 0 =
      Except.ok (⟨[none, some 1], 0⟩, []) ∧
    navAt [none, some 1] 0 = none := by
  constructor <;> rfl

/-- C2 (amended): `setNavigatable(p)` validates only `p < length`;
when the call completes normally it sets `position` to `p` without
touching the list, so `position` indexes a non-null entry exactly when
the entry at `p` was non-null, and `enter()` is only ever invoked on the
non-null entry at `p` (never on a `null` placeholder). -/
theorem setNavigatable_ok_spec (s : PageState) (p : ℤ) (s' : PageState)
    (tr : List PageAction) (h : setNavigatable s p = Except.ok (s', tr)) :
    s'.position = p ∧ s'.navigatables = s.navigatables ∧
    p < (s.navigatables.length : ℤ) ∧
    ((navAt s.navigatables p).isSome →
      (navAt s'.navigatables s'.position).isSome) ∧
    (∀ id, PageAction.enterNav id ∈ tr → navAt s.navigatables p = some id) := by
  unfold setNavigatable at h
  by_cases hnav : isNavigatable s p
  · rw [hnav] at h
    simp only [Bool.not_true, Bool.false_eq_true, if_false] at h
    obtain ⟨hs, htr⟩ := Prod.mk.injEq .. ▸ Except.ok.injEq .. ▸ h
    have hs' : s' = { s with position := p } := hs.symm
    subst hs'
    refine ⟨rfl, rfl, ?_, ?_, ?_⟩
    · have := of_decide_eq_true hnav
      exact this
    · intro hsome
      simpa using hsome
    · intro id hid
      rw [← htr] at hid
      rcases List.mem_append.mp hid with hmem | hmem
      · unfold pageExit at hmem
        rcases hx : navAt s.navigatables s.position with _ | x <;>
          rw [hx] at hmem <;> simp at hmem
      · unfold pageEnter at hmem
        rcases hx : navAt s.navigatables p with _ | x
        · rw [hx] at hmem
          simp at hmem
        · rw [hx] at hmem
          simp at hmem
          exact (congrArg some hmem).symm
  · rw [Bool.not_eq_true] at hnav
    rw [hnav] at h
    simp at h

/-- C2 witness: the amended theorem applied to a page whose only entry is
non-null. -/
theorem setNavigatable_ok_spec_witness :
    (setNavigatable ⟨[some 3], 1⟩ 0 =
      Except.ok (⟨[some 3], 0⟩, [PageAction.enterNav 3])) ∧
    ((⟨[some 3], 0⟩ : PageState).position = 0 ∧
     (⟨[some 3], 0⟩ : PageState).navigatables = [some 3] ∧
     (0 : ℤ) < (([some 3] : List (Option ℕ)).length : ℤ) ∧
     ((navAt [some 3] 0).isSome → (navAt [some 3] 0).isSome) ∧
     (∀ id, PageAction.enterNav id ∈ [PageAction.enterNav 3] →
        navAt [some 3] 0 = some id)) :=
  ⟨by rfl, setNavigatable_ok_spec ⟨[some 3], 1⟩ 0 ⟨[some 3], 0⟩
    [PageAction.enterNav 3] (by rfl)⟩

/-- C3 counterexample: on a `StaticNavigatable` with one cached component,
`select(5)` throws (a `TypeError` on the styling step) and leaves
`position = 5`, which is neither `-1` nor a valid index into the cached
list — the claimed fail-soft behaviour does not hold. -/
theorem select_out_of_range_throws :
    select ⟨[⟨0, true⟩], 0⟩ 5 = (⟨[⟨0, true⟩], 5⟩, none, true) ∧
    (5 : ℤ) ≠ -1 ∧
    ¬ (5 : ℤ) < (([⟨0, true⟩] : List Component).length : ℤ) := by
  refine ⟨rfl, by decide, by decide⟩

/-- C3 (amended): starting from a well-formed state (unselected, or
selected at a valid index), `select(p)` performs no validation: it always
sets `position` to the requested `p` (it never resets to `-1`), it throws
exactly when `p` is not a valid index into the cached component list, and
when `p` is valid it styles the cached component whether or not that
component is still attached to the document. -/
theorem select_no_validation (s : StaticNav) (p : ℤ)
    (hgood : s.position = -1 ∨ (compAt s.components s.position).isSome) :
    (select s p).1.position = p ∧
    (select s p).2.2 = (compAt s.components p).isNone ∧
    (∀ c, compAt s.components p = some c → (select s p).2.1 = some c) := by
  have hthrow : unselectThrows s = false := by
    unfold unselectThrows
    rcases hgood with hg | hg
    · rw [hg]
      simp
    · rcases ho : compAt s.components s.position with _ | v
      · rw [ho] at hg
        simp at hg
      · simp [ho]
  unfold select
  rw [hthrow]
  simp only [Bool.false_eq_true, if_false]
  rcases hc : compAt s.components p with _ | c
  · simp [hc]
  · simp [hc]

/-- C3 witness: the amended theorem applied to an unselected navigatable
with one attached component, selecting index 0. -/
theorem select_no_validation_witness :
    ((⟨[⟨7, true⟩], -1⟩ : StaticNav).position = -1 ∨
      (compAt [⟨7, true⟩] (-1)).isSome) ∧
    ((select ⟨[⟨7, true⟩], -1⟩ 0).1.position = 0 ∧
     (select ⟨[⟨7, true⟩], -1⟩ 0).2.2 = (compAt [⟨7, true⟩] 0).isNone ∧
     (∀ c, compAt [⟨7, true⟩] 0 = some c →
        (select ⟨[⟨7, true⟩], -1⟩ 0).2.1 = some c)) :=
  ⟨Or.inl rfl, select_no_validation ⟨[⟨7, true⟩], -1⟩ 0 (Or.inl rfl)⟩

/-- When no non-negative position at or below `start` is occupied, the
backward walk runs out of any amount of fuel: the source loop decrements
forever. -/
theorem resolveLoop_eq_none (occupied : List ℕ) :
    ∀ (fuel : ℕ) (start : ℤ),
      (∀ k : ℤ, 0 ≤ k → k ≤ start → hasPosition occupied k = false) →
      resolveLoop occupied fuel start = none := by
  intro fuel
  induction fuel with
  | zero => intro start h; rfl
  | succ n ih =>
      intro start h
      have hstart : hasPosition occupied start = false := by
        by_cases h0 : 0 ≤ start
        · exact h start h0 le_rfl
        · unfold hasPosition
          simp [h0]
      unfold resolveLoop
      rw [hstart]
      simp only [Bool.false_eq_true, if_false]
      exact ih (start - 1) (fun k hk hk' => h k hk (by omega))

/-- Fuel reaching down to an occupied non-negative position makes the
backward walk succeed. -/
theorem resolveLoop_isSome (occupied : List ℕ) :
    ∀ (fuel : ℕ) (start k : ℤ), 0 ≤ k → k ≤ start →
      hasPosition occupied k = true → (start - k).toNat < fuel →
      (resolveLoop occupied fuel start).isSome = true := by
  intro fuel
  induction fuel with
  | zero => intro start k _ _ _ hf; omega
  | succ n ih =>
      intro start k hk0 hks hocc hf
      unfold resolveLoop
      by_cases hs : hasPosition occupied start = true
      · rw [hs]
        simp
      · rw [Bool.not_eq_true] at hs
        rw [hs]
        simp only [Bool.false_eq_true, if_false]
        have hne : k ≠ start := by
          intro h
          rw [h, hs] at hocc
          cases hocc
        exact ih (start - 1) k hk0 (by omega) hocc (by omega)

/-- Reduction of `sliderEnter` to the backward walk when the transfer
object carries a position and no foreign jawbone row. -/
theorem sliderEnter_isSome_eq (s : SliderState) (params : TransferParams)
    (p : ℤ) (hp : params.position = some p)
    (hrow : params.jawboneRow.getD (-1) = -1 ∨
      params.jawboneRow.getD (-1) = s.row) :
    (sliderEnter s params).isSome =
      (resolveLoop s.occupied
        ((p + (if s.canShiftLeft then 1 else 0)).toNat + 1)
        (p + (if s.canShiftLeft then 1 else 0))).isSome := by
  unfold sliderEnter
  rw [hp]
  by_cases hjc : params.jawboneClosed <;>
    simp only [hjc, if_true, Bool.false_eq_true, if_false] <;>
    rw [if_pos (by simpa using hrow)] <;>
    rcases hres : resolveLoop s.occupied
      ((p + (if s.canShiftLeft then 1 else 0)).toNat + 1)
      (p + (if s.canShiftLeft then 1 else 0)) with _ | found <;>
    simp [hres]

/-- C10: `Slider.enter(params)` with a defined `params.position`
terminates exactly when some non-negative position `k` at or below the
`canShiftLeft`-adjusted requested position is occupied in the row; in
particular, if position 0 is occupied (and the adjusted start is not
negative) it terminates, and when no position at or below the start is
occupied, the backward walk returns nothing for every amount of fuel:
the loop decrements forever. -/
theorem sliderEnter_terminates_iff (s : SliderState) (params : TransferParams)
    (p : ℤ) (hp : params.position = some p)
    (hrow : params.jawboneRow.getD (-1) = -1 ∨
      params.jawboneRow.getD (-1) = s.row) :
    ((sliderEnter s params).isSome = true ↔
      ∃ k : ℤ, 0 ≤ k ∧ k ≤ p + (if s.canShiftLeft then 1 else 0) ∧
        hasPosition s.occupied k = true) ∧
    (hasPosition s.occupied 0 = true →
      0 ≤ p + (if s.canShiftLeft then 1 else 0) →
      (sliderEnter s params).isSome = true) ∧
    ((∀ k : ℤ, 0 ≤ k → k ≤ p + (if s.canShiftLeft then 1 else 0) →
        hasPosition s.occupied k = false) →
      ∀ fuel, resolveLoop s.occupied fuel
        (p + (if s.canShiftLeft then 1 else 0)) = none) := by
  have hiff : (sliderEnter s params).isSome = true ↔
      ∃ k : ℤ, 0 ≤ k ∧ k ≤ p + (if s.canShiftLeft then 1 else 0) ∧
        hasPosition s.occupied k = true := by
    rw [sliderEnter_isSome_eq s params p hp hrow]
    constructor
    · intro hsome
      by_contra hnone
      push_neg at hnone
      have hall : ∀ k : ℤ, 0 ≤ k → k ≤ p + (if s.canShiftLeft then 1 else 0) →
          hasPosition s.occupied k = false := by
        intro k hk hk'
        rcases Bool.eq_false_or_eq_true (hasPosition s.occupied k) with hb | hb
        · exact absurd hb (hnone k hk hk')
        · exact hb
      rw [resolveLoop_eq_none s.occupied _ _ hall] at hsome
      cases hsome
    · rintro ⟨k, hk0, hks, hocc⟩
      exact resolveLoop_isSome s.occupied _ _ k hk0 hks hocc (by omega)
  refine ⟨hiff, ?_, ?_⟩
  · intro h0 hstart
    exact hiff.mpr ⟨0, le_rfl, hstart, h0⟩
  · intro hall fuel
    exact resolveLoop_eq_none s.occupied fuel _ hall

/-- C10 witness: the theorem applied to a slider whose row occupies
positions 0 and 1, entering with requested position 4 and no shift. -/
theorem sliderEnter_terminates_iff_witness :
    ((⟨2, 0, false, false, [0, 1]⟩ : SliderState).occupied = [0, 1]) ∧
    ((sliderEnter ⟨2, 0, false, false, [0, 1]⟩
        { position := some 4 }).isSome = true ↔
      ∃ k : ℤ, 0 ≤ k ∧ k ≤ 4 + (if false then 1 else 0) ∧
        hasPosition [0, 1] k = true) :=
  ⟨rfl, ((sliderEnter_terminates_iff ⟨2, 0, false, false, [0, 1]⟩
    { position := some 4 } 4 rfl (Or.inl rfl)).1)⟩

/-- C4 counterexample: a `StaticNavigatable` selected at sub-position 2
(three attached components), after `exit()` followed by `enter()` with the
transfer object `exit()` returned, ends at sub-position 0, not 2: the
round trip does not restore the selected sub-position. -/
theorem static_roundtrip_resets :
    (staticEnter (staticExit ⟨[⟨0, true⟩, ⟨1, true⟩, ⟨2, true⟩], 2⟩).1
        (staticExit ⟨[⟨0, true⟩, ⟨1, true⟩, ⟨2, true⟩], 2⟩).2).1.position = 0 ∧
    (⟨[⟨0, true⟩, ⟨1, true⟩, ⟨2, true⟩], 2⟩ : StaticNav).position = 2 ∧
    (0 : ℤ) ≠ 2 := by
  refine ⟨rfl, rfl, by decide⟩

/-- C4 (amended): the `exit()`/`enter()` round trip with the returned
transfer object restores the selected sub-position (indeed the whole
state) for a `Slider` whose row still shows its selected item — its exit
result carries the position and its enter resolves it back; for a
`StaticNavigatable` the round trip instead always lands at sub-position 0,
because its exit result is empty and its enter ignores the transfer
object. -/
theorem exit_enter_roundtrip (sl : SliderState) (st : StaticNav)
    (hsel : hasPosition sl.occupied sl.position = true) :
    sliderEnter (sliderExit sl).1 (sliderExit sl).2 = some sl ∧
    (staticEnter (staticExit st).1 (staticExit st).2).1.position = 0 := by
  constructor
  · show sliderEnter sl
      { position := some (sl.position - (if sl.canShiftLeft then 1 else 0)) } =
      some sl
    unfold sliderEnter
    simp only [Option.getD_none, Bool.false_eq_true, if_false]
    rw [if_pos (Or.inl trivial)]
    have hstart : sl.position - (if sl.canShiftLeft then 1 else 0) +
        (if sl.canShiftLeft then 1 else 0) = sl.position := by ring
    rw [hstart]
    have hres : resolveLoop sl.occupied (sl.position.toNat + 1) sl.position =
        some sl.position := by
      unfold resolveLoop
      rw [hsel]
      simp
    rw [hres]
    simp only [Option.some_inj]
    unfold selectPosition
    rw [hsel]
    simp
  · unfold staticEnter staticExit select unselectThrows
    simp only []
    rcases hc : compAt st.components 0 with _ | c <;> simp [hc]

/-- C4 witness: the amended theorem applied to a slider selected at
position 4 of a row occupying positions 0 to 5 (shift already used) and a
static navigatable with two components selected at sub-position 1. -/
theorem exit_enter_roundtrip_witness :
    hasPosition ([0, 1, 2, 3, 4, 5] : List ℕ) 4 = true ∧
    (sliderEnter (sliderExit ⟨3, 4, true, false, [0, 1, 2, 3, 4, 5]⟩).1
        (sliderExit ⟨3, 4, true, false, [0, 1, 2, 3, 4, 5]⟩).2 =
      some ⟨3, 4, true, false, [0, 1, 2, 3, 4, 5]⟩ ∧
    (staticEnter (staticExit ⟨[⟨0, true⟩, ⟨1, true⟩], 1⟩).1
        (staticExit ⟨[⟨0, true⟩, ⟨1, true⟩], 1⟩).2).1.position = 0) :=
  ⟨by decide, exit_enter_roundtrip ⟨3, 4, true, false, [0, 1, 2, 3, 4, 5]⟩
    ⟨[⟨0, true⟩, ⟨1, true⟩], 1⟩ (by decide)⟩

end NetflixController
